import Mathlib

/-!
Verification of the LISA (Local Indicators of Spatial Association) pipeline
of `streamlit_lisa.py`.

The repository's own code (`LISACalculator.calculate_lisa_for_year`) provides
the data preparation and control flow: filtering the attribute table to the
requested year, averaging duplicate rows per municipality, the inner join with
the geometry table, the guard clauses returning `None`, and the cluster-label
post-processing (`CLUSTER_LABELS`, the `p >= 0.05` overwrite).  Those parts are
embedded below directly from the source.

The statistical engine itself (`Queen.from_dataframe`, `w.transform = "r"`,
`esda.moran.Moran_Local`) is library code that is not part of this repository;
its behaviour is modelled from the design document (sections 4.1-4.5): row
standardization, the local Moran statistic, the conditional permutation test
with a per-unit random stream derived from a global seed, and the sign-based
quadrant classifier.  All arithmetic is carried out over `ℚ`.
-/

namespace Lisa

/-- Modelled from the spec (section 4.3, step 1): the mean of the attribute
vector.  `esda.moran.Moran_Local` is not part of this repository. -/
def mean (y : List ℚ) : ℚ := y.sum / y.length

/-- Modelled from the spec (section 4.3, step 1): per-unit deviations
`z_i = y_i - mean y`. -/
def zdevs (y : List ℚ) : List ℚ := y.map (fun v => v - mean y)

/-- Deviation of unit `i` (0 outside the index range). -/
def zOf (y : List ℚ) (i : Nat) : ℚ := (zdevs y).getD i 0

/-- Modelled from the spec (section 4.3, step 2): the variance proxy
`m2 = (Σ z_i^2) / N`. -/
def m2 (y : List ℚ) : ℚ := ((zdevs y).map (fun z => z * z)).sum / y.length

/-- Neighbor list of unit `i` among units `0, ..., n-1` under the adjacency
predicate `adj`.  The adjacency criterion itself is a parameter: the design
document leaves the point-geometry contiguity rule open (section 9). -/
def neighbors (adj : Nat → Nat → Bool) (n i : Nat) : List Nat :=
  (List.range n).filter (fun j => adj i j)

/-- Modelled from the spec (section 4.2): row standardization.  Each edge of
the binary adjacency gets weight `1 / (neighbor count)`; rows of isolates stay
all-zero.  `w.transform = "r"` of `libpysal` is not part of this repository. -/
def weight (adj : Nat → Nat → Bool) (n i j : Nat) : ℚ :=
  if adj i j then 1 / ((neighbors adj n i).length : ℚ) else 0

/-- Modelled from the spec (section 4.3, step 3): the spatial lag
`lag_i = Σ_j W[i][j] * z_j`. -/
def lagOf (adj : Nat → Nat → Bool) (y : List ℚ) (i : Nat) : ℚ :=
  ((List.range y.length).map (fun j => weight adj y.length i j * zOf y j)).sum

/-- Modelled from the spec (section 4.3, step 4): the local Moran statistic
`I_i = (z_i / m2) * lag_i`, defined as 0 when `m2 = 0`. -/
def localI (adj : Nat → Nat → Bool) (y : List ℚ) (i : Nat) : ℚ :=
  if m2 y = 0 then 0 else (zOf y i / m2 y) * lagOf adj y i

/-- Modelled from the spec (section 4.5): the quadrant code by the signs of
the deviation and the lag, zero falling into the non-positive bucket.  The
codes match `CLUSTER_LABELS` of the source: 1 = HH, 2 = LH, 3 = LL, 4 = HL. -/
def qCode (z lg : ℚ) : Nat :=
  if 0 < z then (if 0 < lg then 1 else 4)
  else (if 0 < lg then 2 else 3)

/-- Modelled from the spec (section 4.4): a linear congruential step for the
permutation streams of the tester. -/
def lcg (s : Nat) : Nat := (s * 1103515245 + 12345) % 2 ^ 31

/-- Modelled from the spec (section 4.4): each unit's permutation stream is
derived from the fixed global seed combined with the unit's index, so results
do not depend on execution order. -/
def mixSeed (seed i : Nat) : Nat := lcg (seed * 2654435761 + i + 1)

/-- Modelled from the spec (section 4.4): draw `k` values without replacement
from `pool`, threading the random state. -/
def draw : Nat → List ℚ → Nat → List ℚ × Nat
  | 0, _, s => ([], s)
  | k + 1, pool, s =>
    if pool.isEmpty then ([], s)
    else
      let t := lcg s
      let idx := t % pool.length
      let rest := draw k (pool.eraseIdx idx) t
      (pool.getD idx 0 :: rest.1, rest.2)

/-- Modelled from the spec (section 4.4): the simulated lag is the mean of the
drawn neighbor deviations (row-standardized binary weights). -/
def simLag (drawn : List ℚ) : ℚ := drawn.sum / drawn.length

/-- Modelled from the spec (section 4.4): the list of `P` simulated local
statistics for one unit, recomputed under random permutation of the pool of
the other units' deviations. -/
def simIs (zi m2v : ℚ) (m : Nat) (pool : List ℚ) : Nat → Nat → List ℚ
  | 0, _ => []
  | p + 1, s =>
    let d := draw m pool (lcg s)
    (if m2v = 0 then 0 else (zi / m2v) * simLag d.1) :: simIs zi m2v m pool p d.2

/-- Modelled from the spec (section 4.4): the empirical two-sided p-value
`p_i = (number of k with |I_i(k)| >= |I_i}| + 1) / (P + 1)`. -/
def pValue (sims : List ℚ) (obs : ℚ) : ℚ :=
  (((sims.filter (fun s => |obs| ≤ |s|)).length : ℚ) + 1) / ((sims.length : ℚ) + 1)

/-- Modelled from the spec (section 4.4): the permutation p-value of unit `i`,
holding `y_i` fixed and permuting the remaining deviations. -/
def pSim (adj : Nat → Nat → Bool) (seed P : Nat) (y : List ℚ) (i : Nat) : ℚ :=
  let z := zdevs y
  let pool := ((List.range y.length).filter (fun j => j ≠ i)).map (fun j => z.getD j 0)
  let m := (neighbors adj y.length i).length
  pValue (simIs (zOf y i) (m2 y) m pool P (mixSeed seed i)) (localI adj y i)

/-! ## Embedding of the repository's own code -/

/-- One row of the attribute table after `process_abandono_data`: municipality
code, year and dropout rate (`cod_mun`, `Ano`, `taxa`). -/
structure AttrRow where
  cod_mun : Int
  ano : Int
  taxa : ℚ
deriving DecidableEq

/-- One row of the geometry table (`code_muni` after the rename, with point
coordinates). -/
structure GeoRow where
  code_muni : Int
  longitude : ℚ
  latitude : ℚ
deriving DecidableEq

/-- Source line 50: `CLUSTER_LABELS = {1: "HH", 2: "LH", 3: "LL", 4: "HL"}`. -/
def CLUSTER_LABELS : List (Nat × String) := [(1, "HH"), (2, "LH"), (3, "LL"), (4, "HL")]

/-- Source lines 200-201: map the quadrant code through `CLUSTER_LABELS`, then
overwrite the label with `"ns"` wherever `LISA_p >= 0.05`.  The threshold is
the literal constant `0.05` of line 201. -/
def lisaClusterLabel (q : Nat) (p : ℚ) : Option String :=
  if 1 / 20 ≤ p then some "ns" else CLUSTER_LABELS.lookup q

/-- The labelling as the design document states it, with a caller-supplied
significance threshold (sections 3 and 4.5).  Kept separate from
`lisaClusterLabel` so the two can be compared. -/
def claimLabel (thr : ℚ) (q : Nat) (p : ℚ) : Option String :=
  if thr ≤ p then some "ns" else CLUSTER_LABELS.lookup q

/-- Source line 173: `df_ano = df[df["Ano"] == ano]`. -/
def rowsForYear (df : List AttrRow) (ano : Int) : List AttrRow :=
  df.filter (fun r => r.ano == ano)

/-- The group of rows of one municipality inside the year slice (the groups of
`df_ano.groupby("cod_mun")`). -/
def groupRows (rows : List AttrRow) (id : Int) : List AttrRow :=
  rows.filter (fun r => r.cod_mun == id)

/-- Source lines 178-183: `df_ano.groupby("cod_mun")["taxa"].mean()`, viewed as
a keyed lookup: the mean of the `taxa` values of the municipality's rows, or
`none` when the municipality has no row. -/
def groupMeanTaxa (rows : List AttrRow) (id : Int) : Option ℚ :=
  let g := groupRows rows id
  if g.isEmpty then none else some ((g.map (fun r => r.taxa)).sum / (g.length : ℚ))

/-- Source line 185: the inner join of the geometry table with the per-year
averaged attribute table, keeping the geometry table's order.  Each joined
unit is its id together with its averaged rate. -/
def joinedUnits (df_geo : List GeoRow) (df : List AttrRow) (ano : Int) : List (Int × ℚ) :=
  df_geo.filterMap (fun g =>
    (groupMeanTaxa (rowsForYear df ano) g.code_muni).map (fun v => (g.code_muni, v)))

/-- One row of the result table: source lines 196-201 (`LISA_I`, `LISA_p`,
`LISA_cluster`, `LISA_cluster_label`) together with the unit's id and the
deviation and lag the modelled engine computes on the way. -/
structure LocalStat where
  unit_id : Int
  zdev : ℚ
  lag : ℚ
  moranI : ℚ
  pval : ℚ
  label : Option String
deriving DecidableEq

/-- The statistic row of the unit at position `i` of the joined batch:
source lines 193-201, with the engine modelled from the spec. -/
def statAt (adj : Nat → Nat → Bool) (seed P : Nat) (units : List (Int × ℚ)) (i : Nat) :
    LocalStat :=
  let y := units.map (fun u => u.2)
  { unit_id := (units.getD i (0, 0)).1
    zdev := zOf y i
    lag := lagOf adj y i
    moranI := localI adj y i
    pval := pSim adj seed P y i
    label := lisaClusterLabel (qCode (zOf y i) (lagOf adj y i)) (pSim adj seed P y i) }

/-- Source lines 191-201: the whole inner computation block applied to the
joined batch, one result row per joined unit. -/
def innerLisa (adj : Nat → Nat → Bool) (seed P : Nat) (units : List (Int × ℚ)) :
    List LocalStat :=
  (List.range units.length).map (fun i => statAt adj seed P units i)

/-- The observable outcomes of `calculate_lisa_for_year`: the three guard
clauses returning `None` (source lines 160-161, 174-175, 187-188) and the
branch that reaches the weight construction and the rest of the computation
(source lines 190-206). -/
inductive CalcOutcome where
  | unavailable : CalcOutcome
  | missingYear : CalcOutcome
  | emptyJoin : CalcOutcome
  | computed : List LocalStat → CalcOutcome
deriving DecidableEq

/-- Control flow of `calculate_lisa_for_year` (source lines 158-206).
`geospatial` models the module flag `GEOSPATIAL_AVAILABLE`; the adjacency
criterion, seed and permutation count parameterize the modelled engine. -/
def calcOutcome (adj : Nat → Nat → Bool) (seed P : Nat) (geospatial : Bool)
    (df : List AttrRow) (df_geo : List GeoRow) (ano : Int) : CalcOutcome :=
  if geospatial then
    if (rowsForYear df ano).isEmpty then .missingYear
    else
      let units := joinedUnits df_geo df ano
      if units.isEmpty then .emptyJoin
      else .computed (innerLisa adj seed P units)
  else .unavailable

/-- `calculate_lisa_for_year` as the caller sees it: `None` on every guard,
the result table otherwise. -/
def calculate_lisa_for_year (adj : Nat → Nat → Bool) (seed P : Nat) (geospatial : Bool)
    (df : List AttrRow) (df_geo : List GeoRow) (ano : Int) : Option (List LocalStat) :=
  match calcOutcome adj seed P geospatial df df_geo ano with
  | .computed stats => some stats
  | _ => none

/-- Processing the units of a batch in an explicit order, results keyed by
position: the per-unit parallelization scheme of the design document
(sections 4.4 and 5), where results are merged by key, not by arrival. -/
def runKeyed (adj : Nat → Nat → Bool) (seed P : Nat) (units : List (Int × ℚ))
    (order : List Nat) : List (Nat × LocalStat) :=
  order.map (fun i => (i, statAt adj seed P units i))

/-! ## The concrete five-unit line fixture (spec section 8) -/

/-- Adjacency of the line A-B-C-D-E: immediate neighbors only. -/
def adjLine (i j : Nat) : Bool := (j == i + 1) || (i == j + 1)

/-- The fixture's attribute vector `y = [10, 10, 10, 1, 1]`. -/
def yLine : List ℚ := [10, 10, 10, 1, 1]

/-- The fixture as a joined batch with unit ids 0-4. -/
def unitsLine : List (Int × ℚ) := [(0, 10), (1, 10), (2, 10), (3, 1), (4, 1)]

/-- The never-adjacent criterion (every unit an isolate). -/
def adjNone : Nat → Nat → Bool := fun _ _ => false

/-- A one-row attribute table: a single municipality with one 2020 value. -/
def df1 : List AttrRow := [⟨1, 2020, 10⟩]

/-- A one-row geometry table matching `df1`, so the join has exactly one unit. -/
def geo1 : List GeoRow := [⟨1, 0, 0⟩]

/-! ## Helper lemmas -/

theorem sum_map_ite (l : List Nat) (p : Nat → Bool) (a : ℚ) :
    (l.map (fun j => if p j then a else 0)).sum = ((l.filter p).length : ℚ) * a := by
  induction l with
  | nil => simp
  | cons j t ih =>
    cases hp : p j
    · simp [List.filter_cons, hp, ih]
    · simp only [List.map_cons, List.sum_cons, List.filter_cons, hp, if_true,
        List.length_cons, ih]
      push_cast
      ring

theorem simIs_length (zi m2v : ℚ) (m : Nat) (pool : List ℚ) (P s : Nat) :
    (simIs zi m2v m pool P s).length = P := by
  induction P generalizing s with
  | zero => rfl
  | succ p ih => simp [simIs, ih]

theorem pValue_bounds (sims : List ℚ) (obs : ℚ) :
    1 / ((sims.length : ℚ) + 1) ≤ pValue sims obs ∧ pValue sims obs ≤ 1 := by
  have hd : (0 : ℚ) < (sims.length : ℚ) + 1 := by positivity
  have hc : (sims.filter (fun s => |obs| ≤ |s|)).length ≤ sims.length :=
    List.length_filter_le _ _
  constructor
  · rw [pValue, div_le_div_iff_of_pos_right hd]
    have h0 : (0 : ℚ) ≤ ((sims.filter (fun s => |obs| ≤ |s|)).length : ℚ) := Nat.cast_nonneg _
    linarith
  · rw [pValue, div_le_one hd]
    have : ((sims.filter (fun s => |obs| ≤ |s|)).length : ℚ) ≤ (sims.length : ℚ) := by
      exact_mod_cast hc
    linarith

theorem map_getD_range {α : Type} (l : List α) (d : α) :
    (List.range l.length).map (fun i => l.getD i d) = l := by
  induction l with
  | nil => simp
  | cons a t ih =>
    rw [List.length_cons, List.range_succ_eq_map]
    simp only [List.map_cons, List.map_map, Function.comp, List.getD_cons_zero,
      List.getD_cons_succ]
    exact congrArg (a :: ·) ih

theorem lookup_map_key (f : Nat → LocalStat) (order : List Nat) (i : Nat) (h : i ∈ order) :
    (order.map (fun j => (j, f j))).lookup i = some (f i) := by
  induction order with
  | nil => cases h
  | cons j t ih =>
    by_cases hij : i = j
    · subst hij
      simp [List.lookup]
    · have ht : i ∈ t := by
        rcases List.mem_cons.mp h with h1 | h1
        · exact absurd h1 hij
        · exact h1
      have hb : (i == j) = false := beq_eq_false_iff_ne.mpr hij
      simpa [List.lookup, hb] using ih ht

theorem lookup_cluster_ne_ns (q : Nat) : CLUSTER_LABELS.lookup q ≠ some "ns" := by
  rcases q with _ | _ | _ | _ | _ | n <;> simp [CLUSTER_LABELS, List.lookup]

theorem innerLisa_ids (adj : Nat → Nat → Bool) (seed P : Nat) (units : List (Int × ℚ)) :
    (innerLisa adj seed P units).map (fun s => s.unit_id) = units.map (fun u => u.1) := by
  have hproj : ((fun s : LocalStat => s.unit_id) ∘ fun i => statAt adj seed P units i) =
      (fun u : Int × ℚ => u.1) ∘ (fun i => units.getD i (0, 0)) := rfl
  calc (innerLisa adj seed P units).map (fun s => s.unit_id)
      = (List.range units.length).map
          ((fun s : LocalStat => s.unit_id) ∘ fun i => statAt adj seed P units i) := by
        simp [innerLisa, List.map_map]
    _ = ((List.range units.length).map (fun i => units.getD i (0, 0))).map
          (fun u : Int × ℚ => u.1) := by
        rw [hproj, ← List.map_map]
    _ = units.map (fun u => u.1) := by rw [map_getD_range]

/-! ## Evaluation of the five-unit line fixture -/

theorem range5_eq : List.range 5 = [0, 1, 2, 3, 4] := rfl

theorem yLine_length : yLine.length = 5 := rfl

theorem zdevs_yLine : zdevs yLine = [18/5, 18/5, 18/5, -27/5, -27/5] := by
  norm_num [zdevs, yLine, mean]

theorem m2_yLine : m2 yLine = 486/25 := by
  norm_num [m2, zdevs, yLine, mean]

theorem zOf_yLine : ∀ i, zOf yLine i = [(18:ℚ)/5, 18/5, 18/5, -27/5, -27/5].getD i 0 := by
  intro i
  simp [zOf, zdevs_yLine]

theorem lag_yLine_0 : lagOf adjLine yLine 0 = 18/5 := by
  simp only [lagOf, yLine_length, range5_eq, List.map, List.sum_cons, List.sum_nil, zOf_yLine]
  norm_num [weight, adjLine, neighbors, range5_eq]

theorem lag_yLine_1 : lagOf adjLine yLine 1 = 18/5 := by
  simp only [lagOf, yLine_length, range5_eq, List.map, List.sum_cons, List.sum_nil, zOf_yLine]
  norm_num [weight, adjLine, neighbors, range5_eq]

theorem lag_yLine_2 : lagOf adjLine yLine 2 = -9/10 := by
  simp only [lagOf, yLine_length, range5_eq, List.map, List.sum_cons, List.sum_nil, zOf_yLine]
  norm_num [weight, adjLine, neighbors, range5_eq]

theorem lag_yLine_3 : lagOf adjLine yLine 3 = -9/10 := by
  simp only [lagOf, yLine_length, range5_eq, List.map, List.sum_cons, List.sum_nil, zOf_yLine]
  norm_num [weight, adjLine, neighbors, range5_eq]

theorem lag_yLine_4 : lagOf adjLine yLine 4 = -27/5 := by
  simp only [lagOf, yLine_length, range5_eq, List.map, List.sum_cons, List.sum_nil, zOf_yLine]
  norm_num [weight, adjLine, neighbors, range5_eq]

theorem localI_yLine_map :
    (List.range 5).map (localI adjLine yLine) = [2/3, 2/3, -1/6, 1/4, 3/2] := by
  simp only [range5_eq, List.map]
  norm_num [localI, m2_yLine, zOf_yLine, lag_yLine_0, lag_yLine_1, lag_yLine_2,
    lag_yLine_3, lag_yLine_4]

theorem round_yLine :
    (List.range 5).map (fun i => round (localI adjLine yLine i * 1000)) =
      [667, 667, -167, 250, 1500] := by
  have h := localI_yLine_map
  simp only [range5_eq, List.map, List.cons.injEq, and_true] at h
  obtain ⟨h0, h1, h2, h3, h4⟩ := h
  simp only [range5_eq, List.map, h0, h1, h2, h3, h4]
  norm_num [round_eq]

theorem quad_yLine :
    (List.range 5).map
        (fun i => CLUSTER_LABELS.lookup (qCode (zOf yLine i) (lagOf adjLine yLine i))) =
      [some "HH", some "HH", some "HL", some "LL", some "LL"] := by
  simp only [range5_eq, List.map, zOf_yLine, lag_yLine_0, lag_yLine_1, lag_yLine_2,
    lag_yLine_3, lag_yLine_4]
  norm_num [qCode, CLUSTER_LABELS, List.lookup]
  decide

theorem innerLisa_line_I (seed P : Nat) :
    (innerLisa adjLine seed P unitsLine).map (fun s => s.moranI) =
      [2/3, 2/3, -1/6, 1/4, 3/2] := by
  have hproj : ((fun s : LocalStat => s.moranI) ∘ fun i => statAt adjLine seed P unitsLine i) =
      fun i => localI adjLine yLine i := rfl
  calc (innerLisa adjLine seed P unitsLine).map (fun s => s.moranI)
      = (List.range unitsLine.length).map
          ((fun s : LocalStat => s.moranI) ∘ fun i => statAt adjLine seed P unitsLine i) := by
        simp [innerLisa, List.map_map]
    _ = (List.range 5).map (localI adjLine yLine) := by rw [hproj]; rfl
    _ = [2/3, 2/3, -1/6, 1/4, 3/2] := localI_yLine_map

/-! ## Claims -/

/-- C1, counterexample: the labelling of the source is not governed by a
caller-supplied threshold.  At p = 0.07 the unit is labelled "ns" although
0.07 is below the would-be caller threshold 0.1, so the claimed equivalence
fails for any threshold other than the hard-coded 0.05. -/
theorem C1_counterexample :
    lisaClusterLabel 1 (7 / 100) = some "ns" ∧ ¬ ((1 : ℚ) / 10 ≤ 7 / 100) ∧
    ¬ (∀ (thr p : ℚ) (q : Nat), lisaClusterLabel q p = some "ns" ↔ thr ≤ p) := by
  refine ⟨by norm_num [lisaClusterLabel], by norm_num, fun h => ?_⟩
  have h1 : lisaClusterLabel 1 (7 / 100) = some "ns" := by norm_num [lisaClusterLabel]
  have h2 := (h (1 / 10) (7 / 100) 1).mp h1
  norm_num at h2

/-- C1, amended: for every unit the cluster label is "ns" if and only if its
p-value is at least 0.05, regardless of quadrant code; the threshold is the
fixed constant 0.05 of source line 201, not a caller-supplied parameter. -/
theorem C1_amended_theorem : ∀ (q : Nat) (p : ℚ), lisaClusterLabel q p = some "ns" ↔ 1 / 20 ≤ p := by
  intro q p
  by_cases hp : (1 : ℚ) / 20 ≤ p
  · rw [lisaClusterLabel, if_pos hp]
    exact iff_of_true rfl hp
  · rw [lisaClusterLabel, if_neg hp]
    exact iff_of_false (lookup_cluster_ne_ns q) hp

/-- C2: the quadrant code is a function of the signs of the deviation and the
lag alone (positive/positive is HH = 1, nonpositive/positive is LH = 2,
nonpositive/nonpositive is LL = 3, positive/nonpositive is HL = 4), with no
dependence on the p-value; consequently a unit labelled HH or HL has a
positive deviation and a unit labelled LH or LL has a nonpositive one. -/
theorem C2_theorem (z lg p : ℚ) :
    (qCode z lg = 1 ↔ 0 < z ∧ 0 < lg) ∧
    (qCode z lg = 2 ↔ z ≤ 0 ∧ 0 < lg) ∧
    (qCode z lg = 3 ↔ z ≤ 0 ∧ lg ≤ 0) ∧
    (qCode z lg = 4 ↔ 0 < z ∧ lg ≤ 0) ∧
    (lisaClusterLabel (qCode z lg) p = some "HH" ↔ p < 1 / 20 ∧ 0 < z ∧ 0 < lg) ∧
    (lisaClusterLabel (qCode z lg) p = some "LH" ↔ p < 1 / 20 ∧ z ≤ 0 ∧ 0 < lg) ∧
    (lisaClusterLabel (qCode z lg) p = some "LL" ↔ p < 1 / 20 ∧ z ≤ 0 ∧ lg ≤ 0) ∧
    (lisaClusterLabel (qCode z lg) p = some "HL" ↔ p < 1 / 20 ∧ 0 < z ∧ lg ≤ 0) := by
  simp only [qCode, lisaClusterLabel, CLUSTER_LABELS, List.lookup]
  split_ifs with h1 h2 h3 h4 h5 h6 <;> simp_all [not_lt, not_le, List.lookup]

/-- C3: the pipeline is a pure function of (adjacency, seed, permutation
count, attribute batch): the per-unit statistic looked up under its key is the
same value regardless of the order the units are processed in, so two runs and
any interleaving yield identical keyed collections. -/
theorem C3_theorem (adj : Nat → Nat → Bool) (seed P : Nat) (units : List (Int × ℚ))
    (order1 order2 : List Nat) (i : Nat) (h1 : i ∈ order1) (h2 : i ∈ order2) :
    (runKeyed adj seed P units order1).lookup i = some (statAt adj seed P units i) ∧
    (runKeyed adj seed P units order1).lookup i =
      (runKeyed adj seed P units order2).lookup i := by
  have e1 := lookup_map_key (fun j => statAt adj seed P units j) order1 i h1
  have e2 := lookup_map_key (fun j => statAt adj seed P units j) order2 i h2
  exact ⟨e1, by rw [runKeyed, runKeyed, e1, e2]⟩

/-- C3, witness: on the line fixture, processing the batch in the orders
0-then-1 and 1-then-0 yields the same statistic under key 0. -/
theorem C3_witness :
    (runKeyed adjLine 0 3 unitsLine [0, 1]).lookup 0 =
      some (statAt adjLine 0 3 unitsLine 0) ∧
    (runKeyed adjLine 0 3 unitsLine [0, 1]).lookup 0 =
      (runKeyed adjLine 0 3 unitsLine [1, 0]).lookup 0 :=
  C3_theorem adjLine 0 3 unitsLine [0, 1] [1, 0] 0 (by decide) (by decide)

/-- C4: the empirical p-value is (count of simulated statistics at least as
extreme as the observed one, plus one) divided by (P plus one), and therefore
every unit's p-value lies between 1/(P+1) and 1. -/
theorem C4_theorem (adj : Nat → Nat → Bool) (seed P : Nat) (y : List ℚ) (i : Nat)
    (sims : List ℚ) (obs : ℚ) :
    pValue sims obs =
      (((sims.filter (fun s => |obs| ≤ |s|)).length : ℚ) + 1) / ((sims.length : ℚ) + 1) ∧
    1 / ((P : ℚ) + 1) ≤ pSim adj seed P y i ∧ pSim adj seed P y i ≤ 1 := by
  refine ⟨rfl, ?_, ?_⟩
  · have h := (pValue_bounds (simIs (zOf y i) (m2 y)
      ((neighbors adj y.length i).length)
      (((List.range y.length).filter (fun j => j ≠ i)).map (fun j => (zdevs y).getD j 0)) P
      (mixSeed seed i)) (localI adj y i)).1
    rw [simIs_length] at h
    exact h
  · exact (pValue_bounds (simIs (zOf y i) (m2 y)
      ((neighbors adj y.length i).length)
      (((List.range y.length).filter (fun j => j ≠ i)).map (fun j => (zdevs y).getD j 0)) P
      (mixSeed seed i)) (localI adj y i)).2

/-- C5, counterexample: a batch whose join has exactly one unit (N = 1 < 2)
does not signal any error: the computation reaches the weight construction
branch and returns a normal result, so no InsufficientUnitsError is raised
before weight construction. -/
theorem C5_counterexample :
    (joinedUnits geo1 df1 2020).length = 1 ∧
    calculate_lisa_for_year adjNone 0 3 true df1 geo1 2020 =
      some (innerLisa adjNone 0 3 (joinedUnits geo1 df1 2020)) ∧
    calculate_lisa_for_year adjNone 0 3 true df1 geo1 2020 ≠ none := by
  have h2 : calculate_lisa_for_year adjNone 0 3 true df1 geo1 2020 =
      some (innerLisa adjNone 0 3 (joinedUnits geo1 df1 2020)) := rfl
  refine ⟨by decide, h2, ?_⟩
  rw [h2]
  exact Option.some_ne_none _

/-- C5, amended: the source has no InsufficientUnitsError.  Whenever the year
slice and the join are non-empty — including a join of exactly one unit — the
computation proceeds to the weight-construction branch and returns its result;
only an empty join stops earlier, with a plain None. -/
theorem C5_theorem (adj : Nat → Nat → Bool) (seed P : Nat)
    (df : List AttrRow) (df_geo : List GeoRow) (ano : Int)
    (h1 : rowsForYear df ano ≠ []) (h2 : joinedUnits df_geo df ano ≠ []) :
    calcOutcome adj seed P true df df_geo ano =
      .computed (innerLisa adj seed P (joinedUnits df_geo df ano)) ∧
    calculate_lisa_for_year adj seed P true df df_geo ano =
      some (innerLisa adj seed P (joinedUnits df_geo df ano)) := by
  have ho : calcOutcome adj seed P true df df_geo ano =
      .computed (innerLisa adj seed P (joinedUnits df_geo df ano)) := by
    rw [calcOutcome]
    simp [List.isEmpty_iff, h1, h2]
  exact ⟨ho, by rw [calculate_lisa_for_year, ho]⟩

/-- C5, witness: the single-unit batch discharges both hypotheses of the
amended statement. -/
theorem C5_witness :
    calcOutcome adjNone 0 3 true df1 geo1 2020 =
      .computed (innerLisa adjNone 0 3 (joinedUnits geo1 df1 2020)) ∧
    calculate_lisa_for_year adjNone 0 3 true df1 geo1 2020 =
      some (innerLisa adjNone 0 3 (joinedUnits geo1 df1 2020)) :=
  C5_theorem adjNone 0 3 df1 geo1 2020 (by decide) (by decide)

/-- C6: when the attribute table has no rows for the requested year, or when
the join of the attribute and geometry tables is empty, the computation
returns None rather than raising or producing partial output. -/
theorem C6_theorem (adj : Nat → Nat → Bool) (seed P : Nat) (geospatial : Bool)
    (df : List AttrRow) (df_geo : List GeoRow) (ano : Int)
    (h : rowsForYear df ano = [] ∨ joinedUnits df_geo df ano = []) :
    calculate_lisa_for_year adj seed P geospatial df df_geo ano = none := by
  rw [calculate_lisa_for_year, calcOutcome]
  cases geospatial
  · rfl
  · rcases h with h | h
    · simp [h]
    · by_cases hy : (rowsForYear df ano).isEmpty
      · simp [hy]
      · simp [hy, h]

/-- C6, witness: a table with 2019 data only yields None for year 2020, and a
pair of tables sharing no municipality id also yields None. -/
theorem C6_witness :
    calculate_lisa_for_year adjNone 0 3 true [⟨1, 2019, 5⟩] [⟨1, 0, 0⟩] 2020 = none ∧
    calculate_lisa_for_year adjNone 0 3 true [⟨1, 2020, 5⟩] [⟨2, 0, 0⟩] 2020 = none :=
  ⟨C6_theorem adjNone 0 3 true _ _ 2020 (Or.inl (by decide)),
   C6_theorem adjNone 0 3 true _ _ 2020 (Or.inr (by decide))⟩

/-- C7: after row standardization every non-isolate unit's weights sum to
exactly 1, each individual weight being one over the unit's neighbor count,
while every isolate unit's row is all-zero. -/
theorem C7_theorem (adj : Nat → Nat → Bool) (n i : Nat) :
    (neighbors adj n i ≠ [] →
      ((List.range n).map (fun j => weight adj n i j)).sum = 1 ∧
      ∀ j, adj i j = true → weight adj n i j = 1 / ((neighbors adj n i).length : ℚ)) ∧
    (neighbors adj n i = [] → ∀ j, j < n → weight adj n i j = 0) := by
  constructor
  · intro hne
    have hlen : ((neighbors adj n i).length : ℚ) ≠ 0 := by
      have := List.length_pos.mpr hne
      exact_mod_cast Nat.pos_iff_ne_zero.mp this
    constructor
    · have hs := sum_map_ite (List.range n) (fun j => adj i j)
        (1 / ((neighbors adj n i).length : ℚ))
      calc ((List.range n).map (fun j => weight adj n i j)).sum
          = ((List.range n).map (fun j =>
              if adj i j then 1 / ((neighbors adj n i).length : ℚ) else 0)).sum := rfl
        _ = ((neighbors adj n i).length : ℚ) * (1 / ((neighbors adj n i).length : ℚ)) := by
            rw [hs]; rfl
        _ = 1 := by field_simp
    · intro j hj
      rw [weight, if_pos hj]
  · intro hiso j hjn
    have : adj i j = false := by
      have := List.filter_eq_nil_iff.mp hiso j (List.mem_range.mpr hjn)
      simpa using this
    rw [weight, this]
    simp

/-- C7, witness: on the line fixture the endpoint unit 0 is a non-isolate
whose row sums to 1, and under the empty adjacency unit 0 is an isolate whose
row is all-zero. -/
theorem C7_witness :
    ((List.range 5).map (fun j => weight adjLine 5 0 j)).sum = 1 ∧
    (∀ j, j < 5 → weight adjNone 5 0 j = 0) :=
  ⟨((C7_theorem adjLine 5 0).1 (by decide)).1, (C7_theorem adjNone 5 0).2 (by decide)⟩

/-- C8: on the five-unit line A-B-C-D-E with attribute values 10, 10, 10, 1, 1
the deviations are 3.6, 3.6, 3.6, -5.4, -5.4, the variance proxy is 19.44, the
local statistics are 2/3, 2/3, -1/6, 1/4, 3/2 (0.667, 0.667, -0.167, 0.250,
1.500 to three decimals), the quadrants are HH, HH, HL, LL, LL, and the local
statistics of the full pipeline do not depend on the permutation seed or
count. -/
theorem C8_theorem :
    zdevs yLine = [18/5, 18/5, 18/5, -27/5, -27/5] ∧
    m2 yLine = 486/25 ∧
    (List.range 5).map (localI adjLine yLine) = [2/3, 2/3, -1/6, 1/4, 3/2] ∧
    (List.range 5).map (fun i => round (localI adjLine yLine i * 1000)) =
      [667, 667, -167, 250, 1500] ∧
    (List.range 5).map
        (fun i => CLUSTER_LABELS.lookup (qCode (zOf yLine i) (lagOf adjLine yLine i))) =
      [some "HH", some "HH", some "HL", some "LL", some "LL"] ∧
    ∀ seed P : Nat, (innerLisa adjLine seed P unitsLine).map (fun s => s.moranI) =
      [2/3, 2/3, -1/6, 1/4, 3/2] :=
  ⟨zdevs_yLine, m2_yLine, localI_yLine_map, round_yLine, quad_yLine, innerLisa_line_I⟩

/-- C9: every run of the computation either returns None or returns a complete
result table covering exactly the joined units, one fully populated statistic
row per unit; no partial output and no silently defaulted rows exist. -/
theorem C9_theorem (adj : Nat → Nat → Bool) (seed P : Nat) (geospatial : Bool)
    (df : List AttrRow) (df_geo : List GeoRow) (ano : Int) :
    calculate_lisa_for_year adj seed P geospatial df df_geo ano = none ∨
    ∃ stats, calculate_lisa_for_year adj seed P geospatial df df_geo ano = some stats ∧
      stats.map (fun s => s.unit_id) = (joinedUnits df_geo df ano).map (fun u => u.1) ∧
      stats.length = (joinedUnits df_geo df ano).length := by
  rw [calculate_lisa_for_year, calcOutcome]
  cases geospatial
  · exact Or.inl rfl
  · by_cases hy : (rowsForYear df ano).isEmpty
    · simp only [hy]
      exact Or.inl rfl
    · by_cases hj : (joinedUnits df_geo df ano).isEmpty
      · simp only [hy, hj]
        exact Or.inl rfl
      · simp only [hy, hj]
        refine Or.inr ⟨innerLisa adj seed P (joinedUnits df_geo df ano), ?_,
          innerLisa_ids adj seed P _, ?_⟩
        · simp
        · rw [innerLisa, List.length_map, List.length_range]

/-- C10: the attribute value fed into the computation for a municipality is
the arithmetic mean of that municipality's rows in the requested year: a
single row passes through unchanged, and duplicate rows are averaged — for
rows 10 and 20 the value is 15, which is neither the first nor the last. -/
theorem C10_theorem (df : List AttrRow) (ano id : Int) (r : AttrRow) :
    (groupRows (rowsForYear df ano) id ≠ [] →
      groupMeanTaxa (rowsForYear df ano) id =
        some (((groupRows (rowsForYear df ano) id).map (fun row => row.taxa)).sum /
          ((groupRows (rowsForYear df ano) id).length : ℚ))) ∧
    (groupRows (rowsForYear df ano) id = [r] →
      groupMeanTaxa (rowsForYear df ano) id = some r.taxa) ∧
    groupMeanTaxa [⟨1, 2020, 10⟩, ⟨1, 2020, 20⟩] 1 = some 15 ∧
    (15 : ℚ) ≠ 10 ∧ (15 : ℚ) ≠ 20 := by
  refine ⟨fun hne => ?_, fun h1 => ?_, ?_, by norm_num, by norm_num⟩
  · simp [groupMeanTaxa, List.isEmpty_iff, hne]
  · simp [groupMeanTaxa, h1]
  · norm_num [groupMeanTaxa, groupRows, List.filter]

/-- C10, witness: the duplicate-row table (values 10 and 20) takes the mean
branch, and the single-row table passes its value through unchanged. -/
theorem C10_witness :
    groupMeanTaxa (rowsForYear [⟨1, 2020, 10⟩, ⟨1, 2020, 20⟩] 2020) 1 =
      some (((groupRows (rowsForYear [⟨1, 2020, 10⟩, ⟨1, 2020, 20⟩] 2020) 1).map
          (fun row => row.taxa)).sum /
        ((groupRows (rowsForYear [⟨1, 2020, 10⟩, ⟨1, 2020, 20⟩] 2020) 1).length : ℚ)) ∧
    groupMeanTaxa (rowsForYear [⟨1, 2020, 10⟩] 2020) 1 = some (10 : ℚ) :=
  ⟨(C10_theorem [⟨1, 2020, 10⟩, ⟨1, 2020, 20⟩] 2020 1 ⟨1, 2020, 10⟩).1 (by decide),
   (C10_theorem [⟨1, 2020, 10⟩] 2020 1 ⟨1, 2020, 10⟩).2.1 (by decide)⟩

end Lisa
